import Mathlib

/-!
# RM-Styler: verification of the menu-synchronization UI logic and the
# style-resolution engine

This file gives a shallow embedding of the RM-Styler repository.

Part 1 models `src/js/rm_styler.js`, the client-side menu-synchronization
logic: the data fetch (`fetchData`), the style-selector update
(`updateStyles`), and the chained category-change callback installed in
`fetchData().then(...)`.

Part 2 models, from the specification, the style-resolution engine
(template substitution, weight formatting, single- and multi-style
resolution), whose implementation lives outside the checked sources.

JavaScript values are modelled as follows: a widget's string value that may
be `undefined` becomes `Option String`; a possibly-`null`/`undefined`
mapping becomes `Option StylesMap`; property lookup on a JS object becomes
`List.lookup` on an association list.  JS arrays are always truthy, so the
guard `stylesMap && stylesMap[selectedCategory]` is falsy exactly when the
mapping is absent or has no entry for the key — a present-but-empty array
passes the guard.
-/

/-- The mapping served by the `/rm_styler/data` endpoint: category name to
ordered list of style names. -/
def StylesMap : Type := List (String × List String)

/-- The part of a combo widget the JS code touches: its valid-value list
(`widget.options.values`) and its current value (`widget.value`, which JS
may set to `undefined`, modelled as `none`). -/
structure StyleWidget where
  values : List String
  value : Option String
deriving DecidableEq, Repr

/-- The sentinel string used by the UI when no styles are available. -/
def NO_STYLES : String := "No Styles Found"

/-- Embeds `updateStyles` from `src/js/rm_styler.js` (lines 33–45).
`stylesMap = none` models a `null`/`undefined` mapping; a lookup miss
models an absent property.  In either case the widget is set to the
sentinel single-option list.  Otherwise the entry becomes the valid-value
list; the current value is kept when it is a member, else set to the
list's first element (`undefined`, i.e. `none`, when the list is empty,
as JS indexing `list[0]` yields). -/
def updateStyles (stylesMap : Option StylesMap) (selectedCategory : String)
    (w : StyleWidget) : StyleWidget :=
  match stylesMap.bind (fun m => m.lookup selectedCategory) with
  | some l =>
      { values := l,
        value :=
          match w.value with
          | some v => if l.contains v then some v else l.head?
          | none => l.head? }
  | none => { values := [NO_STYLES], value := some NO_STYLES }

/-- The widget state produced by the sentinel branch of `updateStyles`. -/
def sentinelWidget : StyleWidget :=
  { values := [NO_STYLES], value := some NO_STYLES }

/-- Embeds `fetchData` from `src/js/rm_styler.js` (lines 21–30).  The
single network round trip is abstracted as an outcome: `.ok d` is a
successful fetch whose parsed JSON body is `d`, `.error e` is any network
or parse failure.  The function returns the parsed data on success; on
failure it logs one console error and returns the empty mapping `{}`.
The final `Nat` records the number of fetch requests the call issues:
exactly one (`api.fetchApi` appears once, and the catch path does not
retry). -/
def fetchData (outcome : Except String (Option StylesMap)) :
    Option StylesMap × List String × Nat :=
  match outcome with
  | .ok d => (d, [], 1)
  | .error e => (some [], ["RMStyler: Error fetching style data: " ++ e], 1)

/-- Embeds the callback installed on the category widget in
`src/js/rm_styler.js` (lines 54–60).  `originalCallback` is the
pre-existing `categoryWidget.callback` (possibly absent); the host state
it acts on is an abstract `σ` and its return type `ρ`; `rest` carries any
extra arguments beyond the changed `value`.  The new callback first
re-applies `updateStyles` with the captured `stylesMap`, then, when a
pre-existing callback was installed, invokes it with the same arguments
and returns its return value (JS returns `undefined`, i.e. `none`,
otherwise).  The final `Nat` records fetch requests issued by one
invocation: zero — the callback body contains no `fetchApi` call. -/
def chainedCallback {σ ρ Rest : Type} (stylesMap : Option StylesMap)
    (originalCallback : Option (String → Rest → σ → σ × ρ))
    (value : String) (rest : Rest) (w : StyleWidget) (s : σ) :
    ((StyleWidget × σ) × Option ρ) × Nat :=
  let w' := updateStyles stylesMap value w
  match originalCallback with
  | some f =>
      let fr := f value rest s
      (((w', fr.1), some fr.2), 0)
  | none => (((w', s), none), 0)

/-- One category-change event during the post-creation lifetime of the
node: the installed `chainedCallback` runs on the widget and host state,
and the fetch requests it issues are added to the running total. -/
def creationStep {σ ρ Rest : Type} (stylesMap : Option StylesMap)
    (originalCallback : Option (String → Rest → σ → σ × ρ))
    (acc : StyleWidget × σ × Nat) (cr : String × Rest) :
    StyleWidget × σ × Nat :=
  let out := chainedCallback stylesMap originalCallback cr.1 cr.2 acc.1 acc.2.1
  (out.1.1.1, out.1.1.2, acc.2.2 + out.2)

/-- Embeds the whole `onNodeCreated` data flow of `src/js/rm_styler.js`
(lines 47–61) for one node creation followed by a sequence of
category-change events.  `outcome` is the single fetch outcome; the
`.then` continuation applies the initial `updateStyles` with the current
category value and installs `chainedCallback` closed over the fetched
mapping; each subsequent change event runs that installed callback.
Returns the final widget state, the final host state, and the total
number of fetch requests issued. -/
def runCreation {σ ρ Rest : Type} (outcome : Except String (Option StylesMap))
    (initialCategory : String)
    (originalCallback : Option (String → Rest → σ → σ × ρ))
    (changes : List (String × Rest)) (w0 : StyleWidget) (s0 : σ) :
    StyleWidget × σ × Nat :=
  let fr := fetchData outcome
  let stylesMap := fr.1
  let w1 := updateStyles stylesMap initialCategory w0
  changes.foldl (creationStep stylesMap originalCallback) (w1, s0, fr.2.2)

/-!
## Part 2 — the style-resolution engine, modelled from the spec

The Python implementation of the engine (template substitution, weight
formatting, single- and multi-style resolution) is not among the checked
sources; the definitions below are modelled from the specification's
component design (§4.2–§4.5).  Strings are manipulated through their
character lists with fuel-bounded recursion so that every definition is
kernel-executable.
-/

/-- The substitution token of positive templates, as a character list. -/
def SUB_TOKEN : List Char := "{prompt}".data

/-- Replaces, left to right, every occurrence of `tok` in the text by
`repl`; `fuel` bounds the number of examined positions (the caller passes
the text's length, which suffices since every step consumes at least one
character). -/
def replaceAllAux (tok repl : List Char) : Nat → List Char → List Char
  | _, [] => []
  | 0, rest => rest
  | fuel + 1, c :: cs =>
    if tok.isPrefixOf (c :: cs) then
      repl ++ replaceAllAux tok repl fuel (List.drop tok.length (c :: cs))
    else
      c :: replaceAllAux tok repl fuel cs

/-- Whether `tok` occurs as a contiguous substring of the text. -/
def containsTok (tok : List Char) : List Char → Bool
  | [] => tok.isEmpty
  | c :: cs => tok.isPrefixOf (c :: cs) || containsTok tok cs

/-- Modelled from the spec (§4.2 Template Substitution): if the template
contains the substitution token, every occurrence is replaced by the
prompt fragment; if the token is absent the fragment is appended after a
comma-space, unless the template is empty, in which case the fragment is
returned alone. -/
def substitute (template promptFragment : String) : String :=
  if containsTok SUB_TOKEN template.data then
    String.mk (replaceAllAux SUB_TOKEN promptFragment.data
      template.data.length template.data)
  else if template = "" then promptFragment
  else template ++ ", " ++ promptFragment

/-- Modelled from the spec (§3, §4.3): weights are real numbers; they are
modelled as exact rationals `num / den` with a positive denominator, an
exact superset of every float the host UI can deliver. -/
structure Weight where
  num : Int
  den : Nat
deriving DecidableEq, Repr

/-- The epsilon test of §4.3: `|w - 1.0| < 1e-6`, stated on the exact
rational as `|num - den| * 1000000 < den`. -/
def isNeutralWeight (w : Weight) : Bool :=
  (w.num - (w.den : Int)).natAbs * 1000000 < w.den

/-- The fractional decimal digits of `num / den` (with `num < den`),
most significant first, stopping at the first exact remainder so that no
trailing zeros are produced; `fuel` bounds the number of digits. -/
def fracDigits : Nat → Nat → Nat → List Char
  | 0, _, _ => []
  | fuel + 1, num, den =>
    if num = 0 then []
    else Nat.digitChar (num * 10 / den) :: fracDigits fuel (num * 10 % den) den

/-- Modelled from the spec (§4.3, §9): the weight rendered with trailing
zeros trimmed but at least one decimal digit (`1.5`, `2.0`); the
fractional expansion is cut at six digits, matching the `1e-6` epsilon
granularity. -/
def formatWeight (w : Weight) : String :=
  let n := w.num.natAbs
  let ds := fracDigits 6 (n % w.den) w.den
  (if w.num < 0 then "-" else "") ++ toString (n / w.den) ++ "." ++
    String.mk (if ds.isEmpty then ['0'] else ds)

/-- Modelled from the spec (§4.3 Weight Formatter): identity when the
weight is 1.0 within epsilon, otherwise `(text:weight)`. -/
def applyWeight (text : String) (w : Weight) : String :=
  if isNeutralWeight w then text
  else "(" ++ text ++ ":" ++ formatWeight w ++ ")"

/-- Modelled from the spec (§3 Data Model): a style record. -/
structure StyleRecord where
  name : String
  positivePrompt : String
  negativePrompt : String
deriving DecidableEq, Repr

/-- Modelled from the spec (§3): the style catalog, a mapping from
category name to its ordered list of style records. -/
def StyleCatalog : Type := List (String × List StyleRecord)

/-- The placeholder returned for invalid selections (§4.4). -/
def FALLBACK_TEXT : String := "No Styles Found"

/-- Looks a style up by category and name; `none` when either is absent. -/
def lookupStyle (catalog : StyleCatalog) (categoryName styleName : String) :
    Option StyleRecord :=
  (catalog.lookup categoryName).bind
    (fun styles => styles.find? (fun st => st.name == styleName))

/-- Modelled from the spec (§3): one slot of a multi-selection. -/
structure StyleSelection where
  categoryName : String
  styleName : String
  weight : Weight
  positiveEnabled : Bool
  negativeEnabled : Bool
deriving DecidableEq, Repr

/-- Modelled from the spec (§4.4 Single-Style Resolver): unknown category
or unknown style yields `(FALLBACK_TEXT, "")`; otherwise the positive is
the substituted, weight-formatted template and the negative is the
record's negative prompt verbatim.  Total — never signals a failure. -/
def resolveSingle (catalog : StyleCatalog) (sel : StyleSelection)
    (promptFragment : String) : String × String :=
  match lookupStyle catalog sel.categoryName sel.styleName with
  | none => (FALLBACK_TEXT, "")
  | some st =>
      (applyWeight (substitute st.positivePrompt promptFragment) sel.weight,
       st.negativePrompt)

/-- Modelled from the spec (§4.5): one positive-chain step.  A slot whose
selection does not resolve in the catalog is treated as fully disabled; a
disabled positive passes the accumulator through unchanged; an enabled
one substitutes the accumulator into its weighted-or-plain template. -/
def slotPosStep (catalog : StyleCatalog) (sel : StyleSelection)
    (acc : String) : String :=
  match lookupStyle catalog sel.categoryName sel.styleName with
  | none => acc
  | some st =>
      if sel.positiveEnabled then
        substitute (applyWeight st.positivePrompt sel.weight) acc
      else acc

/-- Modelled from the spec (§4.5 Multi-Style Compositor, positive chain):
slots are listed outermost first (slot 1 at the head, slot N last);
processing proceeds from the highest slot index down to slot 1, each
step's output feeding the next lower-indexed slot, which the right fold
realizes. -/
def resolveMultiPos (catalog : StyleCatalog) (slots : List StyleSelection)
    (basePrompt : String) : String :=
  slots.foldr (slotPosStep catalog) basePrompt

/-- Modelled from the spec (§4.5, negative composition): enabled,
resolving, non-empty negatives are comma-joined in slot 1 → slot N
order. -/
def resolveMultiNeg (catalog : StyleCatalog) (slots : List StyleSelection) :
    String :=
  String.intercalate ", "
    (slots.filterMap (fun sel =>
      match lookupStyle catalog sel.categoryName sel.styleName with
      | none => none
      | some st =>
          if sel.negativeEnabled && st.negativePrompt ≠ "" then
            some st.negativePrompt
          else none))

/-- Modelled from the spec (§4.5): the full multi-style composition. -/
def resolveMulti (catalog : StyleCatalog) (slots : List StyleSelection)
    (basePrompt : String) : String × String :=
  (resolveMultiPos catalog slots basePrompt, resolveMultiNeg catalog slots)


/-!
## Claim theorems
-/

/-- C1: for every fetched mapping and every selected category the mapping
has no entry for (or when the mapping is absent), `updateStyles` sets the
style selector's valid-value list to the single-option list
`["No Styles Found"]` and the selected value to `"No Styles Found"`. -/
theorem C1_missing_entry_sentinel (stylesMap : Option StylesMap)
    (selectedCategory : String) (w : StyleWidget)
    (h : stylesMap = none ∨
      ∃ m, stylesMap = some m ∧ m.lookup selectedCategory = none) :
    updateStyles stylesMap selectedCategory w = sentinelWidget := by
  rcases h with h | ⟨m, rfl, hm⟩
  · subst h; rfl
  · simp [updateStyles, hm, sentinelWidget]

/-- Witness for C1 at a mapping lacking the selected category. -/
theorem C1_missing_entry_sentinel_witness :
    updateStyles (some [("Basic", ["s1"])]) "Artists" ⟨["x"], some "x"⟩
      = sentinelWidget :=
  C1_missing_entry_sentinel _ _ _ (Or.inr ⟨_, rfl, by decide⟩)

/-- C2: when the fetched mapping has an entry for the selected category,
`updateStyles` sets the valid values to that entry's list; a
previously-held value that is a member of the list is kept, and otherwise
the value becomes the list's first element. -/
theorem C2_present_entry_update (m : StylesMap) (selectedCategory : String)
    (w : StyleWidget) (l : List String)
    (h : m.lookup selectedCategory = some l) :
    (updateStyles (some m) selectedCategory w).values = l ∧
    (∀ v, w.value = some v → v ∈ l →
      (updateStyles (some m) selectedCategory w).value = some v) ∧
    ((∀ v, w.value = some v → v ∉ l) →
      (updateStyles (some m) selectedCategory w).value = l.head?) := by
  refine ⟨?_, ?_, ?_⟩
  · simp [updateStyles, h]
  · intro v hv hmem
    simp [updateStyles, h, hv, hmem]
  · intro hnot
    cases hv : w.value with
    | none => simp [updateStyles, h, hv]
    | some v => simp [updateStyles, h, hv, hnot v hv]

/-- Witness for C2 at a mapping holding the selected category. -/
theorem C2_present_entry_update_witness :
    (updateStyles (some [("Basic", ["s1", "s2"])]) "Basic" ⟨["x"], some "s2"⟩).values
        = ["s1", "s2"] ∧
    (updateStyles (some [("Basic", ["s1", "s2"])]) "Basic" ⟨["x"], some "s2"⟩).value
        = some "s2" :=
  ⟨(C2_present_entry_update [("Basic", ["s1", "s2"])] "Basic" ⟨["x"], some "s2"⟩
      ["s1", "s2"] (by decide)).1,
   (C2_present_entry_update [("Basic", ["s1", "s2"])] "Basic" ⟨["x"], some "s2"⟩
      ["s1", "s2"] (by decide)).2.1 "s2" rfl (by decide)⟩

/-- C3: the callback installed on the category selector re-applies the
set-valid-values-and-reselect-if-invalid logic (`updateStyles`) on the
changed value, and a pre-existing callback is preserved: it is invoked
with the same arguments on the same host state and its return value is
returned. -/
theorem C3_callback_chaining {σ ρ Rest : Type} (stylesMap : Option StylesMap)
    (f : String → Rest → σ → σ × ρ) (value : String) (rest : Rest)
    (w : StyleWidget) (s : σ) :
    chainedCallback stylesMap (some f) value rest w s =
      (((updateStyles stylesMap value w, (f value rest s).1),
        some (f value rest s).2), 0) :=
  rfl

/-- C4: a failing fetch returns the empty mapping after logging exactly
one error, issues exactly one request (no retry), and node creation still
completes, with the style selector degraded to the sentinel listing. -/
theorem C4_fetch_failure_degrades (e : String) (selectedCategory : String)
    (w : StyleWidget) :
    fetchData (.error e) =
      (some [], ["RMStyler: Error fetching style data: " ++ e], 1) ∧
    updateStyles (fetchData (.error e)).1 selectedCategory w = sentinelWidget ∧
    (@runCreation Unit Unit Unit (.error e) selectedCategory none [] w ()).1
        = sentinelWidget ∧
    (@runCreation Unit Unit Unit (.error e) selectedCategory none [] w ()).2.2
        = 1 :=
  ⟨rfl, rfl, rfl, rfl⟩

/-- A single invocation of the installed callback issues no fetch
request. -/
theorem chainedCallback_requests {σ ρ Rest : Type}
    (stylesMap : Option StylesMap)
    (originalCallback : Option (String → Rest → σ → σ × ρ))
    (value : String) (rest : Rest) (w : StyleWidget) (s : σ) :
    (chainedCallback stylesMap originalCallback value rest w s).2 = 0 := by
  cases originalCallback <;> rfl

/-- A change event leaves the request total unchanged. -/
theorem creationStep_count {σ ρ Rest : Type} (stylesMap : Option StylesMap)
    (originalCallback : Option (String → Rest → σ → σ × ρ))
    (acc : StyleWidget × σ × Nat) (cr : String × Rest) :
    (creationStep stylesMap originalCallback acc cr).2.2 = acc.2.2 := by
  cases originalCallback <;> rfl

/-- A change event applies `updateStyles` with the captured mapping to the
current widget state. -/
theorem creationStep_widget {σ ρ Rest : Type} (stylesMap : Option StylesMap)
    (originalCallback : Option (String → Rest → σ → σ × ρ))
    (acc : StyleWidget × σ × Nat) (cr : String × Rest) :
    (creationStep stylesMap originalCallback acc cr).1 =
      updateStyles stylesMap cr.1 acc.1 := by
  cases originalCallback <;> rfl

/-- Folding change events never alters the request total. -/
theorem foldl_creationStep_count {σ ρ Rest : Type}
    (stylesMap : Option StylesMap)
    (originalCallback : Option (String → Rest → σ → σ × ρ)) :
    ∀ (changes : List (String × Rest)) (acc : StyleWidget × σ × Nat),
      (changes.foldl (creationStep stylesMap originalCallback) acc).2.2
        = acc.2.2 := by
  intro changes
  induction changes with
  | nil => intro acc; rfl
  | cons c cs ih =>
      intro acc
      rw [List.foldl_cons, ih, creationStep_count]

/-- C5: per node creation exactly one request for the listing is issued,
no matter how many category changes follow, and every subsequent
category-change invocation applies `updateStyles` with the mapping from
that single startup response (the listing is never refetched).  The
installed callback is, by construction of `runCreation`, a function of
that one response, so it is wired only after the response arrives. -/
theorem C5_single_fetch_mapping_reuse {σ ρ Rest : Type}
    (outcome : Except String (Option StylesMap)) (initialCategory : String)
    (originalCallback : Option (String → Rest → σ → σ × ρ))
    (w0 : StyleWidget) (s0 : σ) :
    (∀ changes,
      (runCreation outcome initialCategory originalCallback changes w0 s0).2.2
        = 1) ∧
    (∀ changes c r,
      (runCreation outcome initialCategory originalCallback
          (changes ++ [(c, r)]) w0 s0).1 =
        updateStyles (fetchData outcome).1 c
          (runCreation outcome initialCategory originalCallback
            changes w0 s0).1) := by
  constructor
  · intro changes
    have hone : (fetchData outcome).2.2 = 1 := by
      cases outcome <;> rfl
    simp only [runCreation, foldl_creationStep_count, hone]
  · intro changes c r
    simp only [runCreation, List.foldl_append, List.foldl_cons,
      List.foldl_nil, creationStep_widget]

/-- A two-category-entry demonstration catalog holding the spec's two
stacking templates. -/
def demoCatalog : StyleCatalog :=
  [("Basic",
    [⟨"Cinematic", "{prompt}, cinematic", ""⟩,
     ⟨"Vivid", "{prompt}, vivid colors", ""⟩])]

/-- Slot 1 (outermost) of the spec's stacking example, weight 1.0. -/
def demoSlot1 : StyleSelection := ⟨"Basic", "Cinematic", ⟨1, 1⟩, true, true⟩

/-- Slot 2 (innermost) of the spec's stacking example, weight 1.0. -/
def demoSlot2 : StyleSelection := ⟨"Basic", "Vivid", ⟨1, 1⟩, true, true⟩

/-- C6: `resolveMultiPos` processes slots from the highest index down to
slot 1 — the head slot (slot 1) is applied to the result of resolving all
higher-indexed slots, so each enabled slot's resolved positive feeds the
next lower-indexed slot — and on the spec's example (base `"a cat"`,
slot 2 `"{prompt}, vivid colors"`, slot 1 `"{prompt}, cinematic"`, both
positive-enabled at weight 1.0) it yields
`"a cat, vivid colors, cinematic"`. -/
theorem C6_stacking_order :
    (∀ (catalog : StyleCatalog) (sel : StyleSelection)
        (slots : List StyleSelection) (basePrompt : String),
      resolveMultiPos catalog (sel :: slots) basePrompt =
        slotPosStep catalog sel (resolveMultiPos catalog slots basePrompt)) ∧
    resolveMultiPos demoCatalog [demoSlot1, demoSlot2] "a cat"
      = "a cat, vivid colors, cinematic" :=
  ⟨fun _ _ _ _ => rfl, by decide⟩

/-- C7: `substitute` replaces every occurrence of the token when present
(checked on the spec's single-occurrence example and a two-occurrence
one); when the token is absent the fragment is appended after a single
comma-space, except that an empty template yields the fragment alone. -/
theorem C7_substitute_cases :
    (∀ template promptFragment : String,
        containsTok SUB_TOKEN template.data = false → template ≠ "" →
        substitute template promptFragment
          = template ++ ", " ++ promptFragment) ∧
    (∀ promptFragment : String, substitute "" promptFragment = promptFragment) ∧
    substitute "a {prompt} b" "X" = "a X b" ∧
    substitute "plain text" "X" = "plain text, X" ∧
    substitute "{prompt} and {prompt}" "X" = "X and X" := by
  refine ⟨?_, ?_, by decide, by decide, by decide⟩
  · intro t f hc hne
    simp [substitute, hc, hne]
  · intro f
    have hc : containsTok SUB_TOKEN ("" : String).data = false := by decide
    simp [substitute, hc]

/-- Witness for C7 at a concrete token-free, non-empty template. -/
theorem C7_substitute_cases_witness :
    substitute "plain" "X" = "plain, X" :=
  C7_substitute_cases.1 "plain" "X" (by decide) (by decide)

/-- C8: `resolveSingle` with a category name not in the catalog, or a
style name not in the selected category, returns
`("No Styles Found", "")` for every weight and prompt fragment; being a
total function it never signals a hard failure. -/
theorem C8_resolveSingle_fallback (catalog : StyleCatalog)
    (sel : StyleSelection) (promptFragment : String)
    (h : catalog.lookup sel.categoryName = none ∨
      ∃ styles, catalog.lookup sel.categoryName = some styles ∧
        styles.find? (fun st => st.name == sel.styleName) = none) :
    resolveSingle catalog sel promptFragment = (FALLBACK_TEXT, "") := by
  rcases h with h | ⟨styles, hs, hf⟩
  · simp [resolveSingle, lookupStyle, h]
  · simp [resolveSingle, lookupStyle, hs, hf]

/-- Witness for C8: an unknown category and an unknown style name. -/
theorem C8_resolveSingle_fallback_witness :
    resolveSingle demoCatalog ⟨"Unknown", "Cinematic", ⟨3, 2⟩, true, true⟩
        "a cat" = (FALLBACK_TEXT, "") ∧
    resolveSingle demoCatalog ⟨"Basic", "Nope", ⟨3, 2⟩, true, true⟩
        "a cat" = (FALLBACK_TEXT, "") :=
  ⟨C8_resolveSingle_fallback demoCatalog
      ⟨"Unknown", "Cinematic", ⟨3, 2⟩, true, true⟩ "a cat"
      (Or.inl (by decide)),
   C8_resolveSingle_fallback demoCatalog
      ⟨"Basic", "Nope", ⟨3, 2⟩, true, true⟩ "a cat"
      (Or.inr ⟨[⟨"Cinematic", "{prompt}, cinematic", ""⟩,
                ⟨"Vivid", "{prompt}, vivid colors", ""⟩],
        by decide, by decide⟩)⟩

/-- C9: `applyWeight` is the identity when the weight is 1.0 within
epsilon (`|w - 1| < 1e-6`, stated exactly on the rational model) and
otherwise wraps as `(text:weight)` with trailing zeros trimmed but at
least one decimal digit, as the spec's three examples show. -/
theorem C9_applyWeight_format :
    (∀ (text : String) (w : Weight),
        (w.num - (w.den : Int)).natAbs * 1000000 < w.den →
        applyWeight text w = text) ∧
    (∀ (text : String) (w : Weight),
        ¬ (w.num - (w.den : Int)).natAbs * 1000000 < w.den →
        applyWeight text w = "(" ++ text ++ ":" ++ formatWeight w ++ ")") ∧
    applyWeight "cat" ⟨1, 1⟩ = "cat" ∧
    applyWeight "cat" ⟨3, 2⟩ = "(cat:1.5)" ∧
    applyWeight "cat" ⟨2, 1⟩ = "(cat:2.0)" := by
  refine ⟨?_, ?_, by decide, by decide, by decide⟩
  · intro text w h
    simp [applyWeight, isNeutralWeight, h]
  · intro text w h
    simp [applyWeight, isNeutralWeight, h]

/-- Witness for C9 at a weight within epsilon of 1.0 but not equal. -/
theorem C9_applyWeight_format_witness :
    applyWeight "cat" ⟨2000001, 2000000⟩ = "cat" :=
  C9_applyWeight_format.1 "cat" ⟨2000001, 2000000⟩ (by decide)

/-- C10: a present-but-empty entry for the selected category sets the
valid-value list to the empty list and the value to `undefined` (`none`);
the sentinel widget state is not produced in that case (it arises only
from the absent-mapping/absent-key branch). -/
theorem C10_empty_entry_not_sentinel (m : StylesMap)
    (selectedCategory : String) (w : StyleWidget)
    (h : m.lookup selectedCategory = some []) :
    updateStyles (some m) selectedCategory w = ⟨[], none⟩ ∧
    updateStyles (some m) selectedCategory w ≠ sentinelWidget := by
  have h1 : updateStyles (some m) selectedCategory w = ⟨[], none⟩ := by
    cases hv : w.value <;> simp [updateStyles, h, hv]
  exact ⟨h1, by rw [h1]; decide⟩

/-- Witness for C10 at a mapping whose selected entry is empty. -/
theorem C10_empty_entry_not_sentinel_witness :
    updateStyles (some [("Basic", [])]) "Basic" ⟨["x"], some "x"⟩
        = ⟨[], none⟩ ∧
    updateStyles (some [("Basic", [])]) "Basic" ⟨["x"], some "x"⟩
        ≠ sentinelWidget :=
  C10_empty_entry_not_sentinel [("Basic", [])] "Basic" ⟨["x"], some "x"⟩
    (by decide)
